import Mathlib

/-!
Verification of the sentiment-signal-automation batch scripts.

The repository contains two Python batch scripts:
  * `legalbandi_monitor.py` — fetches public-notice listings, filters them
    with a language-model call (with a keyword fallback), and emails a report;
  * `send_signal_email.py` — fetches news and calendar events, scores market
    sentiment with a language-model call, renders a bar chart and emails it.

This file shallowly embeds the pure decision logic of those scripts.
External effects (HTTP, the OpenAI completion call, SMTP) are modelled as
explicit inputs: the outcome of each external call is a parameter of the
embedded function, so every control-flow branch of the source is represented
by a case of the corresponding Lean definition.
-/

set_option maxRecDepth 16000

namespace SentimentSignal

/- ### String utilities

Python's `in` operator on strings is substring containment, and f-strings
interpolate `str(n)` for integers.  We model both over `List Char`. -/

/-- `leadsWith needle hay` is true when `needle` occurs at the very start of
`hay` (character-by-character match). -/
def leadsWith : List Char → List Char → Bool
  | [], _ => true
  | _ :: _, [] => false
  | c :: cs, d :: ds => c == d && leadsWith cs ds

/-- `hasSub needle hay` is true when `needle` occurs contiguously somewhere in
`hay`; this is Python's `needle in hay` on strings. -/
def hasSub (needle : List Char) : List Char → Bool
  | [] => needle.isEmpty
  | d :: ds => leadsWith needle (d :: ds) || hasSub needle ds

/-- Python's `needle in hay` for strings. -/
def strContains (hay needle : String) : Bool :=
  hasSub needle.data hay.data

/-- Fuel-driven accumulator loop producing the decimal digits of `n` in
front of `acc`; the fuel (always sufficient at `n + 1`) keeps the recursion
structural. -/
def natStrCharsAux : Nat → Nat → List Char → List Char
  | 0, _, acc => acc
  | fuel + 1, n, acc =>
    if n < 10 then Nat.digitChar n :: acc
    else natStrCharsAux fuel (n / 10) (Nat.digitChar (n % 10) :: acc)

/-- Decimal digits of a natural number, most significant first; models
Python's `str(n)` for a non-negative integer as used by f-string
interpolation. -/
def natStrChars (n : Nat) : List Char :=
  natStrCharsAux (n + 1) n []

/-- Python's `str(n)` for a natural number. -/
def natStr (n : Nat) : String :=
  ⟨natStrChars n⟩

/-- ASCII lowercasing of one character; models Python's `str.lower()` on the
ASCII titles and keywords the scripts compare (non-ASCII letters are left
unchanged). -/
def lowerChar (c : Char) : Char :=
  if 'A' ≤ c ∧ c ≤ 'Z' then Char.ofNat (c.toNat + 32) else c

/-- Python's `s.lower()`. -/
def lowerStr (s : String) : String :=
  ⟨s.data.map lowerChar⟩

/-- Python's `s.startswith(t)`. -/
def pyStartsWith (s t : String) : Bool :=
  leadsWith t.data s.data

/-- Python's `sep.join(items)`. -/
def joinSep (sep : String) : List String → String
  | [] => ""
  | [s] => s
  | s :: s' :: rest => s ++ sep ++ joinSep sep (s' :: rest)

/-- Concatenation of a list of strings (Python's `+=` accumulation of
per-record HTML fragments). -/
def concatAll : List String → String
  | [] => ""
  | s :: rest => s ++ concatAll rest

/- ### Data model -/

/-- One extracted listing record (`ListingRecord` of the spec); the dicts
built by `fetch_bandi_from_source` with keys source/title/url/found_date. -/
structure Bando where
  source : String
  title : String
  url : String
  found_date : String
deriving DecidableEq

/-- A scalar JSON value, as produced by `json.loads` for the object fields the
scripts read (strings and numbers; JSON `true/false/null` included for
completeness).  JSON integers and floats are both modelled as rationals. -/
inductive JVal where
  | vstr (s : String)
  | vnum (q : ℚ)
  | vbool (b : Bool)
  | vnull
deriving DecidableEq

/-- The dict returned by `analyze_sentiment_with_openai` (`SentimentResult`
of the spec).  Field values are dynamically typed in Python, hence `JVal`. -/
structure SentimentResult where
  stance : JVal
  score : JVal
  confidence : JVal
  conclusion : JVal
deriving DecidableEq

/-- Outcome of the model call made by `filter_bandi_with_openai`, seen after
the fence-stripping and `json.loads` steps of lines 146–154:
`intList idxs` when the whole pipeline yields a Python list of integers,
`raises` when any exception occurs on that path (network error, non-JSON
reply, or a decoded shape whose iteration/indexing raises). -/
inductive ModelReply where
  | intList (idxs : List Int)
  | raises

/-- Outcome of the model call made by `analyze_sentiment_with_openai`:
`ok reply` when the call, fence stripping and `json.loads` produce a JSON
object (an association list of fields, later duplicates overriding earlier
ones as in Python dicts), `exc msg` when any exception with message `msg`
is raised on that path. -/
inductive AnalysisOutcome where
  | ok (reply : List (String × JVal))
  | exc (msg : String)

/-- The mailer-relevant environment: the sender address and password read
from the environment (`none` models an unset variable), and whether the
SMTP connect/login/send inside the `try` block succeeds. -/
structure MailEnv where
  sender : Option String
  password : Option String
  sendOk : Bool

/-- Python truthiness of an optional environment string: unset (`None`) and
the empty string are falsy. -/
def pyTruthyStr : Option String → Bool
  | none => false
  | some s => !s.isEmpty

/- ### `legalbandi_monitor.py`: the extractor (`fetch_bandi_from_source`)

The function wraps all parsing in one function-level `try` that returns `[]`
on any exception (lines 52–111).  The ConcorsiPubblici branch additionally
wraps each element in its own `try/except: continue` (lines 66–77); the
Concorsi.it and generic branches (lines 80–104) have no per-element handler,
so an exception raised while processing one element propagates to the
function-level handler.  The BeautifulSoup work on one element is modelled by
its outcome. -/

/-- Outcome of processing one `div` element in the ConcorsiPubblici branch:
`found t` when `elem.find(['h2','h3','a'])` yields a truthy title with text
`t`, `missing` when it yields `None`, `raises` when the element's processing
raises. -/
inductive CPElem where
  | found (title : String)
  | missing
  | raises

/-- ConcorsiPubblici branch of `fetch_bandi_from_source` (lines 64–77 plus
the final `return bandi[:5]`): at most 10 elements are scanned, a raising
element is skipped by the inner `except: continue`, and the result is capped
at 5 records. -/
def fetch_concorsipubblici (srcName srcUrl nowStr : String) (elems : List CPElem) :
    List Bando :=
  ((elems.take 10).filterMap fun e =>
    match e with
    | CPElem.found t => some ⟨srcName, t, srcUrl, nowStr⟩
    | CPElem.missing => none
    | CPElem.raises => none).take 5

/-- Outcome of processing one anchor in the generic branch: `ok text href`
when `get_text`/`link['href']` succeed, `raises` when the element's
processing raises. -/
inductive LinkElem where
  | ok (text : String) (href : String)
  | raises

/-- The keep condition of the generic branch (lines 97–98): the lowercased
text contains "avvocato" or "legale", has length strictly between 30 and
300, and contains "bando", "concorso" or "selezione". -/
def genKeep (text : String) : Bool :=
  (strContains (lowerStr text) "avvocato" || strContains (lowerStr text) "legale")
    && decide (30 < text.length) && decide (text.length < 300)
    && (strContains (lowerStr text) "bando" || strContains (lowerStr text) "concorso"
        || strContains (lowerStr text) "selezione")

/-- The record built by the generic branch (lines 99–104). -/
def genRecord (srcName srcUrl nowStr text href : String) : Bando :=
  ⟨srcName, text, if pyStartsWith href "http" then href else srcUrl, nowStr⟩

/-- The loop of the generic branch: collects the records of the kept anchors
in order; a raising element aborts with an exception (`Except.error`),
since this branch has no per-element handler. -/
def genericCollect (srcName srcUrl nowStr : String) :
    List LinkElem → Except Unit (List Bando)
  | [] => Except.ok []
  | LinkElem.raises :: _ => Except.error ()
  | LinkElem.ok text href :: rest =>
    match genericCollect srcName srcUrl nowStr rest with
    | Except.error e => Except.error e
    | Except.ok bs =>
      Except.ok (if genKeep text then genRecord srcName srcUrl nowStr text href :: bs else bs)

/-- Generic branch of `fetch_bandi_from_source` (lines 93–104): the loop's
records capped at 5, or `[]` when an exception reached the function-level
handler (lines 109–111). -/
def fetch_generic (srcName srcUrl nowStr : String) (links : List LinkElem) :
    List Bando :=
  match genericCollect srcName srcUrl nowStr links with
  | Except.ok bs => bs.take 5
  | Except.error _ => []

/- ### `legalbandi_monitor.py`: the relevance filter (`filter_bandi_with_openai`) -/

/-- The enumerated item list embedded in the prompt (line 119):
`"\n\n".join(f"{i+1}. {title} (Fonte: {source})")`. -/
def bandi_text (all_bandi : List Bando) : String :=
  joinSep "\n\n"
    ((List.range all_bandi.length).zip all_bandi |>.map fun p =>
      natStr (p.1 + 1) ++ ". " ++ p.2.title ++ " (Fonte: " ++ p.2.source ++ ")")

/-- The prompt of lines 121–133. -/
def build_prompt (all_bandi : List Bando) : String :=
  "Analizza questi bandi e identifica SOLO quelli che cercano avvocati come COLLABORATORI/CONSULENTI/LIBERO FORO (NON dipendenti a tempo indeterminato).\n\nCriteri per includere un bando:\n- Deve cercare avvocati come collaboratori, consulenti esterni, libero foro\n- Deve essere ATTIVO (non scaduto)\n- NO assunzioni a tempo indeterminato come dipendenti\n- NO concorsi pubblici per ruoli dirigenziali interni\n\nBandi da analizzare:\n"
    ++ bandi_text all_bandi
    ++ "\n\nRispondi SOLO con un JSON array contenente i numeri dei bandi pertinenti, esempio: [1, 3, 5]\nSe nessun bando √® pertinente, rispondi: []"

/-- The selection list comprehension of line 155:
`[all_bandi[i-1] for i in selected_indices if 0 < i <= len(all_bandi)]`. -/
def selectByIndices (all_bandi : List Bando) (selected_indices : List Int) : List Bando :=
  selected_indices.filterMap fun i =>
    if 0 < i ∧ i ≤ (all_bandi.length : Int) then all_bandi[(i - 1).toNat]? else none

/-- The fallback keyword list of line 163. -/
def fallback_keywords : List String :=
  ["collaboratore", "collaborazione", "consulente", "consulenza", "libero foro",
   "esterno", "professionale"]

/-- The keyword fallback of line 164:
`[b for b in all_bandi if any(kw in b['title'].lower() for kw in keywords)]`. -/
def keywordFallback (all_bandi : List Bando) : List Bando :=
  all_bandi.filter fun b => fallback_keywords.any fun kw => strContains (lowerStr b.title) kw

/-- `filter_bandi_with_openai` (lines 113–165).  The argument `m` maps the
constructed prompt to the outcome of the OpenAI call followed by fence
stripping and `json.loads` (see `ModelReply`); the `except` branch of lines
160–165 returns the keyword fallback. -/
def filter_bandi_with_openai (m : String → ModelReply) (all_bandi : List Bando) :
    List Bando :=
  if all_bandi.isEmpty then []
  else
    match m (build_prompt all_bandi) with
    | ModelReply.intList selected_indices => selectByIndices all_bandi selected_indices
    | ModelReply.raises => keywordFallback all_bandi

/- ### `legalbandi_monitor.py`: the report renderer (`send_email_report`)

`send_email_report` builds `html_body` from the filtered records, the total,
and `datetime.now()` (passed here as the pre-formatted strings the two
`strftime` calls produce).  The mojibake characters are reproduced as they
appear in the source file. -/

/-- Constant HTML fragments of the per-record block of lines 197–204, split
at the f-string interpolation points. -/
def block_seg1 : String :=
  "\n<div style=\"background: #f5f5f5; padding: 15px; margin: 10px 0; border-left: 4px solid #2e7d32;\">\n    <h3 style=\"margin: 0 0 10px 0; color: #1976d2;\">"

/-- Fragment between the index and the title. -/
def block_seg2 : String := ". "

/-- Fragment between the title and the source. -/
def block_seg3 : String := "</h3>\n    <p style=\"margin: 5px 0;\"><strong>Fonte:</strong> "

/-- Fragment between the source and the link href. -/
def block_seg4 : String := "</p>\n    <p style=\"margin: 5px 0;\"><strong>Link:</strong> <a href=\""

/-- Fragment between the href and the truncated link text. -/
def block_seg5 : String := "\">"

/-- Fragment between the truncated link text and the found date. -/
def block_seg6 : String :=
  "...</a></p>\n    <p style=\"margin: 5px 0; font-size: 12px; color: #666;\">Trovato il: "

/-- Closing fragment of the block. -/
def block_seg7 : String := "</p>\n</div>\n"

/-- One per-record HTML block of lines 197–204 (1-based index `idx`); note
the URL truncation `bando['url'][:80]` in the link text. -/
def bando_block (idx : Nat) (b : Bando) : String :=
  block_seg1 ++ natStr idx ++ block_seg2 ++ b.title ++ block_seg3 ++ b.source
    ++ block_seg4 ++ b.url ++ block_seg5 ++ b.url.take 80 ++ block_seg6
    ++ b.found_date ++ block_seg7

/-- The blocks of `enumerate(bandi_pertinenti, 1)` starting at index `k`. -/
def bandi_blocks_from (k : Nat) : List Bando → List String
  | [] => []
  | b :: bs => bando_block k b :: bandi_blocks_from (k + 1) bs

/-- The per-record blocks concatenated into `bandi_html` (lines 195–204). -/
def bandi_blocks (bandi : List Bando) : List String :=
  bandi_blocks_from 1 bandi

/-- Opening fragment of the empty-branch `html_body` (lines 185–187). -/
def empty_seg1 : String :=
  "<html><body>\n<h2>üîç Monitoraggio Bandi Avvocati - Nessun nuovo bando</h2>\n<p><strong>Data scansione:</strong> "

/-- Fragment between the timestamp and the total (line 188). -/
def empty_seg2 : String := "</p>\n<p>Bandi totali analizzati: "

/-- Closing fragment of the empty-branch `html_body`, containing the
explicit zero count (lines 189–193). -/
def empty_seg3 : String :=
  "</p>\n<p>Bandi pertinenti (collaboratori libero foro): <strong>0</strong></p>\n<hr>\n<p><em>Nessun nuovo bando per avvocati collaboratori/libero foro trovato questa settimana.</em></p>\n<p>Il sistema continuer√† a monitorare settimanalmente.</p>\n</body></html>"

/-- The `html_body` of the empty branch (lines 185–193). -/
def empty_report_body (nowStr : String) (total : Nat) : String :=
  empty_seg1 ++ nowStr ++ empty_seg2 ++ natStr total ++ empty_seg3

/-- Opening fragment of the non-empty-branch `html_body` (lines 206–208). -/
def nonempty_seg1 : String :=
  "<html><body>\n<h2 style=\"color: #2e7d32;\">‚úÖ Nuovi Bandi per Avvocati Collaboratori</h2>\n<p><strong>Data scansione:</strong> "

/-- Fragment between the timestamp and the total (line 209). -/
def nonempty_seg2 : String := "</p>\n<p>Bandi totali analizzati: "

/-- Fragment between the total and the pertinent count (line 210). -/
def nonempty_seg3 : String :=
  "</p>\n<p>Bandi pertinenti (collaboratori libero foro): <strong>"

/-- Fragment between the pertinent count and the blocks (lines 210–211). -/
def nonempty_seg4 : String := "</strong></p>\n<hr>\n"

/-- Closing fragment of the non-empty-branch `html_body` (lines 213–215). -/
def nonempty_seg5 : String :=
  "\n<hr>\n<p style=\"font-size: 12px; color: #666;\"><em>Generato automaticamente da LegalBandi Monitor</em></p>\n</body></html>"

/-- The `html_body` of the non-empty branch (lines 206–215). -/
def nonempty_report_body (nowStr : String) (bandi : List Bando) (total : Nat) : String :=
  nonempty_seg1 ++ nowStr ++ nonempty_seg2 ++ natStr total ++ nonempty_seg3
    ++ natStr bandi.length ++ nonempty_seg4 ++ concatAll (bandi_blocks bandi)
    ++ nonempty_seg5

/-- The `html_body` chosen by the `if not bandi_pertinenti` branch of
`send_email_report` (lines 184–215). -/
def send_email_report_body (nowStr : String) (bandi : List Bando) (total : Nat) : String :=
  if bandi.isEmpty then empty_report_body nowStr total
  else nonempty_report_body nowStr bandi total

/-- The boolean result of `send_email_report` (lines 167–228): `False` when
the sender address or password is unset or empty (lines 175–177), otherwise
the success of the SMTP session (lines 219–228).  The sender field models
`EMAIL_FROM or SENDER_EMAIL`, the password `EMAIL_PASSWORD or
SENDER_PASSWORD`. -/
def send_email_report_ok (env : MailEnv) : Bool :=
  if pyTruthyStr env.sender && pyTruthyStr env.password then env.sendOk else false

/-- `main` of `legalbandi_monitor.py` (lines 230–261): both the empty-fetch
path (lines 243–246) and the normal path (lines 248–261) end in `return 0`;
the email outcome is only printed. -/
def legalbandi_main (fetched : List Bando) (m : String → ModelReply) (env : MailEnv) :
    Int :=
  if fetched.isEmpty then
    let _ok := send_email_report_ok env
    0
  else
    let _pertinenti := filter_bandi_with_openai m fetched
    let _ok := send_email_report_ok env
    0

/- ### `send_signal_email.py`: the sentiment analyzer -/

/-- Last-occurrence lookup in a decoded JSON object: Python dicts built by
`json.loads` keep the last value of a duplicated key. -/
def lookupLast (fs : List (String × JVal)) (key : String) : Option JVal :=
  match fs.reverse.find? fun p => p.1 == key with
  | some p => some p.2
  | none => none

/-- Python's `result.get(key, default)`. -/
def dictGet (fs : List (String × JVal)) (key : String) (dflt : JVal) : JVal :=
  (lookupLast fs key).getD dflt

/-- Whether the decoded object has the key at all. -/
def hasKey (fs : List (String × JVal)) (key : String) : Bool :=
  fs.any fun p => p.1 == key

/-- `analyze_sentiment_with_openai` (lines 106–160) as a function of the
call's outcome: the success branch completes the decoded object with the
defaults of lines 146–151, the `except` branch returns the fixed dict of
lines 155–160 with the error message truncated by `str(e)[:100]`. -/
def analyze_sentiment_with_openai : AnalysisOutcome → SentimentResult
  | AnalysisOutcome.ok reply =>
    { stance := dictGet reply "stance" (JVal.vstr "NEUTRAL")
      score := dictGet reply "score" (JVal.vnum 0)
      confidence := dictGet reply "confidence" (JVal.vnum (1 / 2))
      conclusion := dictGet reply "conclusion" (JVal.vstr "Analisi non disponibile") }
  | AnalysisOutcome.exc msg =>
    { stance := JVal.vstr "NEUTRAL"
      score := JVal.vnum 0
      confidence := JVal.vnum 0
      conclusion := JVal.vstr ("Errore nell\x27analisi: " ++ msg.take 100) }

/- ### `send_signal_email.py`: the chart (`create_sentiment_chart`) -/

/-- The geometry and color of the bar chart drawn by `create_sentiment_chart`
(lines 162–188): the bar color of line 171, the fixed axis range of
`ax.set_xlim(-100, 100)` on line 173, and the value passed to `ax.barh`. -/
structure Chart where
  barColor : String
  xMin : ℚ
  xMax : ℚ
  barValue : ℚ
deriving DecidableEq

/-- `create_sentiment_chart` viewed as a function of the numeric score. -/
def create_sentiment_chart (score : ℚ) : Chart :=
  { barColor := if score < -30 then "red" else if score < 30 then "orange" else "green"
    xMin := -100
    xMax := 100
    barValue := score }

/-- The visible horizontal extent of the drawn bar: matplotlib clips every
artist to the axes viewport, whose x-range is fixed by
`ax.set_xlim(-100, 100)`, so a bar value outside that range is displayed
clamped to it. -/
def shownBarValue (c : Chart) : ℚ :=
  max c.xMin (min c.xMax c.barValue)

/-- The chart drawn from an analysis result: the comparison `score < -30`,
`ax.barh` and the `{conf:.2f}` title format all require numeric values, so a
non-numeric score or confidence raises (modelled as `none`). -/
def chartOfSentiment (r : SentimentResult) : Option Chart :=
  match r.score, r.confidence with
  | JVal.vnum q, JVal.vnum _ => some (create_sentiment_chart q)
  | _, _ => none

/-- The boolean result of `send_email_signal` (lines 190–248): `False` when
`EMAIL_FROM` or `EMAIL_PASSWORD` is unset or empty (lines 199–201),
otherwise the success of the SMTP session (lines 238–248). -/
def send_email_signal_ok (env : MailEnv) : Bool :=
  if pyTruthyStr env.sender && pyTruthyStr env.password then env.sendOk else false

/-- `main` of `send_signal_email.py` (lines 250–284): analyses, prints the
confidence with `:.2f`, draws the chart, and returns 0 when
`send_email_signal` succeeds, 1 otherwise.  `none` models the uncaught
exception raised by the `:.2f` format or the chart when the analysis result
carries a non-numeric score or confidence (the process then exits non-zero
with a traceback). -/
def signal_main (outcome : AnalysisOutcome) (env : MailEnv) : Option Int :=
  let sentiment := analyze_sentiment_with_openai outcome
  match chartOfSentiment sentiment with
  | none => none
  | some _chart => some (if send_email_signal_ok env then 0 else 1)

/- ### Helper lemmas about the string model -/

theorem leadsWith_self_append (x y : List Char) : leadsWith x (x ++ y) = true := by
  induction x with
  | nil => rfl
  | cons c cs ih => simp [leadsWith, ih]

theorem leadsWith_append_right : ∀ {n h : List Char} (t : List Char),
    leadsWith n h = true → leadsWith n (h ++ t) = true := by
  intro n
  induction n with
  | nil => intro h t _; rfl
  | cons c cs ih =>
    intro h t hl
    cases h with
    | nil => simp [leadsWith] at hl
    | cons d ds =>
      simp only [leadsWith, Bool.and_eq_true, beq_iff_eq] at hl ⊢
      exact ⟨hl.1, ih t hl.2⟩

theorem hasSub_nil_needle (h : List Char) : hasSub [] h = true := by
  cases h <;> rfl

theorem hasSub_of_leadsWith : ∀ {n h : List Char}, leadsWith n h = true → hasSub n h = true := by
  intro n h hl
  cases h with
  | nil =>
    cases n with
    | nil => rfl
    | cons c cs => simp [leadsWith] at hl
  | cons d ds => simp [hasSub, hl]

theorem hasSub_append_left : ∀ (g : List Char) {n h : List Char},
    hasSub n h = true → hasSub n (g ++ h) = true := by
  intro g
  induction g with
  | nil => intro n h hh; simpa using hh
  | cons a as ih =>
    intro n h hh
    simp only [List.cons_append, hasSub, Bool.or_eq_true]
    exact Or.inr (ih hh)

theorem hasSub_append_right : ∀ {h : List Char} (t : List Char) {n : List Char},
    hasSub n h = true → hasSub n (h ++ t) = true := by
  intro h
  induction h with
  | nil =>
    intro t n hh
    have hn : n = [] := by
      cases n with
      | nil => rfl
      | cons c cs => simp [hasSub, List.isEmpty] at hh
    subst hn
    exact hasSub_nil_needle t
  | cons d ds ih =>
    intro t n hh
    simp only [hasSub, Bool.or_eq_true] at hh
    rcases hh with hl | hr
    · exact hasSub_of_leadsWith (leadsWith_append_right t hl)
    · simp only [List.cons_append, hasSub, Bool.or_eq_true]
      exact Or.inr (ih t hr)

theorem hasSub_middle (a x b : List Char) : hasSub x (a ++ (x ++ b)) = true :=
  hasSub_append_left a (hasSub_of_leadsWith (leadsWith_self_append x b))

theorem leadsWith_chars : ∀ {n h : List Char}, leadsWith n h = true → ∀ c ∈ n, c ∈ h := by
  intro n
  induction n with
  | nil => intro h _ c hc; simp at hc
  | cons a as ih =>
    intro h hl c hc
    cases h with
    | nil => simp [leadsWith] at hl
    | cons d ds =>
      simp only [leadsWith, Bool.and_eq_true, beq_iff_eq] at hl
      rcases List.mem_cons.mp hc with rfl | hmem
      · exact hl.1 ▸ List.mem_cons_self _ _
      · exact List.mem_cons_of_mem d (ih hl.2 c hmem)

theorem hasSub_chars : ∀ {h n : List Char}, hasSub n h = true → ∀ c ∈ n, c ∈ h := by
  intro h
  induction h with
  | nil =>
    intro n hh c hc
    cases n with
    | nil => simp at hc
    | cons a as => simp [hasSub, List.isEmpty] at hh
  | cons d ds ih =>
    intro n hh c hc
    simp only [hasSub, Bool.or_eq_true] at hh
    rcases hh with hl | hr
    · exact leadsWith_chars hl c hc
    · exact List.mem_cons_of_mem d (ih hr c hc)

theorem digitChar_isDigit {d : Nat} (hd : d < 10) : (Nat.digitChar d).isDigit = true := by
  interval_cases d <;> decide

theorem natStrCharsAux_digits : ∀ (fuel n : Nat) (acc : List Char),
    (∀ c ∈ acc, c.isDigit = true) → ∀ c ∈ natStrCharsAux fuel n acc, c.isDigit = true := by
  intro fuel
  induction fuel with
  | zero => intro n acc hacc c hc; exact hacc c hc
  | succ f ih =>
    intro n acc hacc c hc
    simp only [natStrCharsAux] at hc
    split at hc
    · rcases List.mem_cons.mp hc with rfl | hmem
      · exact digitChar_isDigit (by omega)
      · exact hacc c hmem
    · refine ih (n / 10) _ ?_ c hc
      intro c' hc'
      rcases List.mem_cons.mp hc' with rfl | hmem
      · exact digitChar_isDigit (Nat.mod_lt n (by omega))
      · exact hacc c' hmem

theorem natStrChars_digits (n : Nat) : ∀ c ∈ natStrChars n, c.isDigit = true :=
  natStrCharsAux_digits (n + 1) n [] (by simp)

theorem strData_append (a b : String) : (a ++ b).data = a.data ++ b.data := by
  cases a; cases b; rfl

theorem hasSub_concatAll : ∀ {l : List String} {s : String},
    s ∈ l → hasSub s.data (concatAll l).data = true := by
  intro l
  induction l with
  | nil => intro s hs; simp at hs
  | cons x xs ih =>
    intro s hs
    rcases List.mem_cons.mp hs with rfl | hmem
    · show hasSub s.data (s ++ concatAll xs).data = true
      rw [strData_append]
      exact hasSub_of_leadsWith (leadsWith_self_append _ _)
    · show hasSub s.data (x ++ concatAll xs).data = true
      rw [strData_append]
      exact hasSub_append_left _ (ih hmem)

theorem bandi_blocks_from_length : ∀ (l : List Bando) (k : Nat),
    (bandi_blocks_from k l).length = l.length := by
  intro l
  induction l with
  | nil => intro k; rfl
  | cons b bs ih => intro k; simp [bandi_blocks_from, ih]

theorem bandi_blocks_from_getElem? : ∀ (l : List Bando) (k i : Nat) (b : Bando),
    l[i]? = some b → (bandi_blocks_from k l)[i]? = some (bando_block (k + i) b) := by
  intro l
  induction l with
  | nil => intro k i b h; simp at h
  | cons x xs ih =>
    intro k i b h
    cases i with
    | zero =>
      simp only [List.getElem?_cons_zero, Option.some.injEq] at h
      subst h
      simp [bandi_blocks_from]
    | succ j =>
      simp only [List.getElem?_cons_succ] at h
      have hrec := ih (k + 1) j b h
      show (bando_block k x :: bandi_blocks_from (k + 1) xs)[j + 1]? = _
      rw [List.getElem?_cons_succ, hrec, show k + 1 + j = k + (j + 1) by omega]

theorem lookupLast_eq_none {fs : List (String × JVal)} {k : String}
    (h : hasKey fs k = false) : lookupLast fs k = none := by
  unfold lookupLast
  have h2 : ∀ (a : String) (b : JVal), (a, b) ∈ fs → ¬ a = k := by
    simpa [hasKey] using h
  have hfind : fs.reverse.find? (fun p => p.1 == k) = none := by
    rw [List.find?_eq_none]
    intro p hp
    obtain ⟨a, b⟩ := p
    simpa using h2 a b (List.mem_reverse.mp hp)
  rw [hfind]

/-- Modelled from the spec's words (§4.3, §8): the selection that keeps
exactly the 1-based indices `i` with `1 ≤ i ≤ N` and maps each kept index
to the `(i-1)`-th input record; to be compared with `selectByIndices`,
which is translated from the source. -/
def specSelection (batch : List Bando) (idxs : List Int) : List Bando :=
  (idxs.filter fun i => decide (1 ≤ i ∧ i ≤ (batch.length : Int))).filterMap
    fun i => batch[(i - 1).toNat]?

theorem selectByIndices_eq_spec (batch : List Bando) (idxs : List Int) :
    selectByIndices batch idxs = specSelection batch idxs := by
  unfold selectByIndices specSelection
  rw [List.filterMap_filter]
  congr 1
  funext i
  by_cases hc : 0 < i ∧ i ≤ (batch.length : Int)
  · rw [if_pos hc, if_pos (show decide (1 ≤ i ∧ i ≤ (batch.length : Int)) = true by
      simp only [decide_eq_true_eq]; exact ⟨by omega, hc.2⟩)]
  · rw [if_neg hc, if_neg (show ¬decide (1 ≤ i ∧ i ≤ (batch.length : Int)) = true by
      simp only [decide_eq_true_eq]; omega)]

theorem selectByIndices_nil (idxs : List Int) : selectByIndices [] idxs = [] := by
  rw [selectByIndices_eq_spec]
  unfold specSelection
  have hnl : (idxs.filter fun i => decide (1 ≤ i ∧ i ≤ (([] : List Bando).length : Int))) = [] := by
    rw [List.filter_eq_nil_iff]
    intro a _
    simp only [decide_eq_true_eq, List.length_nil]
    omega
  rw [hnl]
  rfl

/-- A concrete record used to instantiate hypotheses at witness points. -/
def bando0 : Bando :=
  ⟨"ConcorsiPubblici.com", "Selezione avvocato collaboratore esterno",
   "https://www.concorsipubblici.com/x", "2026-10-07"⟩

/- ### Claim theorems -/

/-- C1: for every input batch and every model reply that decodes as a JSON
list of integers, the selection path of `filter_bandi_with_openai` keeps
exactly the indices `i` with `1 ≤ i ≤ N` (mapping each kept index to the
`(i-1)`-th input record) and discards every index outside `[1, N]`: the
returned selection equals `specSelection`, which is stated from the spec's
words.  The witness covers the particular case `N = 1`, reply `[0, 2]`. -/
theorem c1_index_selection (batch : List Bando) (idxs : List Int)
    (m : String → ModelReply) (hm : m (build_prompt batch) = ModelReply.intList idxs) :
    filter_bandi_with_openai m batch = specSelection batch idxs := by
  cases batch with
  | nil =>
    rw [show filter_bandi_with_openai m [] = [] from rfl, ← selectByIndices_eq_spec]
    exact (selectByIndices_nil idxs).symm
  | cons b bs =>
    unfold filter_bandi_with_openai
    rw [show (b :: bs).isEmpty = false from rfl, hm, ← selectByIndices_eq_spec]
    rfl

/-- Witness for C1: a batch of one record with model reply `[0, 2]` yields
the empty selection. -/
theorem c1_witness :
    filter_bandi_with_openai (fun _ => ModelReply.intList [0, 2]) [bando0] = [] := by
  rw [c1_index_selection [bando0] [0, 2] (fun _ => ModelReply.intList [0, 2]) rfl]
  rfl

/-- C2: whenever the model call or the parse of its reply raises, the
selection variant returns the keyword fallback — a sublist of the input
whose members all contain a configured keyword in their lowercased title —
and the scoring variant returns stance NEUTRAL, score 0, with the error
message truncated to 100 characters in the conclusion.  Neither variant can
propagate an exception: both are total functions of the call outcome. -/
theorem c2_failure_fallback (batch : List Bando) (m : String → ModelReply) (msg : String)
    (hm : m (build_prompt batch) = ModelReply.raises) :
    filter_bandi_with_openai m batch = keywordFallback batch ∧
    List.Sublist (keywordFallback batch) batch ∧
    (∀ b ∈ keywordFallback batch,
      (fallback_keywords.any fun kw => strContains (lowerStr b.title) kw) = true) ∧
    analyze_sentiment_with_openai (AnalysisOutcome.exc msg) =
      { stance := JVal.vstr "NEUTRAL", score := JVal.vnum 0, confidence := JVal.vnum 0,
        conclusion := JVal.vstr ("Errore nell\x27analisi: " ++ msg.take 100) } := by
  refine ⟨?_, ?_, ?_, rfl⟩
  · cases batch with
    | nil => rfl
    | cons b bs =>
      unfold filter_bandi_with_openai
      rw [show (b :: bs).isEmpty = false from rfl, hm]
      rfl
  · exact List.filter_sublist _
  · intro b hb
    exact (List.mem_filter.mp hb).2

/-- Witness for C2: a one-record batch whose title contains "collaboratore"
survives the fallback, and a failed analysis carries the error text. -/
theorem c2_witness :
    filter_bandi_with_openai (fun _ => ModelReply.raises) [bando0] = [bando0] ∧
    (fallback_keywords.any fun kw => strContains (lowerStr bando0.title) kw) = true ∧
    (analyze_sentiment_with_openai (AnalysisOutcome.exc "boom")).conclusion =
      JVal.vstr "Errore nell\x27analisi: boom" := by
  have h := c2_failure_fallback [bando0] (fun _ => ModelReply.raises) "boom" rfl
  refine ⟨?_, ?_, ?_⟩
  · rw [h.1]; decide
  · exact h.2.2.1 bando0 (by decide)
  · rw [h.2.2.2]
    rfl

/-- C9: on an empty input batch `filter_bandi_with_openai` returns the empty
list immediately; the result does not depend on the model oracle in any way,
so no prompt is consulted and no model call is issued. -/
theorem c9_empty_input (m m' : String → ModelReply) :
    filter_bandi_with_openai m [] = [] ∧
    filter_bandi_with_openai m [] = filter_bandi_with_openai m' [] :=
  ⟨rfl, rfl⟩

/-- C6: for every decoded JSON object reply, absent fields are completed by
the defaulting rule stance → NEUTRAL, score → 0, confidence → 0.5,
conclusion → placeholder text; in particular the reply
`{"stance": "RISK-OFF"}` is completed to exactly that stance with all other
fields defaulted. -/
theorem c6_defaulting (fs : List (String × JVal)) :
    (hasKey fs "stance" = false →
      (analyze_sentiment_with_openai (AnalysisOutcome.ok fs)).stance = JVal.vstr "NEUTRAL") ∧
    (hasKey fs "score" = false →
      (analyze_sentiment_with_openai (AnalysisOutcome.ok fs)).score = JVal.vnum 0) ∧
    (hasKey fs "confidence" = false →
      (analyze_sentiment_with_openai (AnalysisOutcome.ok fs)).confidence = JVal.vnum (1 / 2)) ∧
    (hasKey fs "conclusion" = false →
      (analyze_sentiment_with_openai (AnalysisOutcome.ok fs)).conclusion =
        JVal.vstr "Analisi non disponibile") ∧
    analyze_sentiment_with_openai (AnalysisOutcome.ok [("stance", JVal.vstr "RISK-OFF")]) =
      { stance := JVal.vstr "RISK-OFF", score := JVal.vnum 0,
        confidence := JVal.vnum (1 / 2), conclusion := JVal.vstr "Analisi non disponibile" } := by
  refine ⟨?_, ?_, ?_, ?_, rfl⟩ <;>
    · intro h
      show dictGet fs _ _ = _
      unfold dictGet
      rw [lookupLast_eq_none h]
      rfl

/-- Witness for C6: concrete replies with each field absent receive its
default. -/
theorem c6_witness :
    (analyze_sentiment_with_openai (AnalysisOutcome.ok [("confidence", JVal.vnum 1)])).stance =
      JVal.vstr "NEUTRAL" ∧
    (analyze_sentiment_with_openai (AnalysisOutcome.ok [("confidence", JVal.vnum 1)])).score =
      JVal.vnum 0 ∧
    (analyze_sentiment_with_openai (AnalysisOutcome.ok [("stance", JVal.vstr "x")])).confidence =
      JVal.vnum (1 / 2) ∧
    (analyze_sentiment_with_openai (AnalysisOutcome.ok [("stance", JVal.vstr "x")])).conclusion =
      JVal.vstr "Analisi non disponibile" :=
  ⟨(c6_defaulting [("confidence", JVal.vnum 1)]).1 (by decide),
   (c6_defaulting [("confidence", JVal.vnum 1)]).2.1 (by decide),
   (c6_defaulting [("stance", JVal.vstr "x")]).2.2.1 (by decide),
   (c6_defaulting [("stance", JVal.vstr "x")]).2.2.2.1 (by decide)⟩

/-- C10: the exception path returns confidence 0.0 while the success path
defaults an absent confidence field to 0.5, so the two outcomes assign the
`confidence` field distinct values. -/
theorem c10_error_confidence (msg : String) (fs : List (String × JVal)) :
    (analyze_sentiment_with_openai (AnalysisOutcome.exc msg)).confidence = JVal.vnum 0 ∧
    (hasKey fs "confidence" = false →
      (analyze_sentiment_with_openai (AnalysisOutcome.ok fs)).confidence = JVal.vnum (1 / 2)) ∧
    (hasKey fs "confidence" = false →
      (analyze_sentiment_with_openai (AnalysisOutcome.exc msg)).confidence ≠
        (analyze_sentiment_with_openai (AnalysisOutcome.ok fs)).confidence) := by
  refine ⟨rfl, ?_, ?_⟩
  · intro h
    show dictGet fs _ _ = _
    unfold dictGet
    rw [lookupLast_eq_none h]
    rfl
  · intro h heq
    have h2 : (analyze_sentiment_with_openai (AnalysisOutcome.ok fs)).confidence =
        JVal.vnum (1 / 2) := by
      show dictGet fs _ _ = _
      unfold dictGet
      rw [lookupLast_eq_none h]
      rfl
    rw [h2, show (analyze_sentiment_with_openai (AnalysisOutcome.exc msg)).confidence =
          JVal.vnum 0 from rfl] at heq
    have h0 : (0 : ℚ) = 1 / 2 := by injection heq
    norm_num at h0

/-- Witness for C10 at a concrete error message and the empty reply. -/
theorem c10_witness :
    (analyze_sentiment_with_openai (AnalysisOutcome.exc "down")).confidence = JVal.vnum 0 ∧
    (analyze_sentiment_with_openai (AnalysisOutcome.ok [])).confidence = JVal.vnum (1 / 2) ∧
    (analyze_sentiment_with_openai (AnalysisOutcome.exc "down")).confidence ≠
      (analyze_sentiment_with_openai (AnalysisOutcome.ok [])).confidence :=
  ⟨(c10_error_confidence "down" []).1,
   (c10_error_confidence "down" []).2.1 (by decide),
   (c10_error_confidence "down" []).2.2 (by decide)⟩

/-- Counterexample for C4: a decoded reply supplying the out-of-range score
500 is passed through unclamped, so the result handed to the Renderer has a
score outside [-100, 100], contradicting the claimed clamping. -/
theorem c4_counterexample :
    (analyze_sentiment_with_openai (AnalysisOutcome.ok [("score", JVal.vnum 500)])).score =
      JVal.vnum 500 ∧
    ¬(-100 ≤ (500 : ℚ) ∧ (500 : ℚ) ≤ 100) := by
  constructor
  · rfl
  · intro h
    have := h.2
    norm_num at this

/-- C4 (amended): the score and confidence fields are defaulted when absent
(score → 0, confidence → 0.5), so the Renderer is never given a missing
value; but a supplied value is passed through unchanged, with no clamping of
out-of-range scores. -/
theorem c4_amended (fs : List (String × JVal)) (v : JVal) :
    (lookupLast fs "score" = none →
      (analyze_sentiment_with_openai (AnalysisOutcome.ok fs)).score = JVal.vnum 0) ∧
    (lookupLast fs "score" = some v →
      (analyze_sentiment_with_openai (AnalysisOutcome.ok fs)).score = v) ∧
    (lookupLast fs "confidence" = none →
      (analyze_sentiment_with_openai (AnalysisOutcome.ok fs)).confidence = JVal.vnum (1 / 2)) ∧
    (lookupLast fs "confidence" = some v →
      (analyze_sentiment_with_openai (AnalysisOutcome.ok fs)).confidence = v) := by
  refine ⟨?_, ?_, ?_, ?_⟩ <;>
    · intro h
      show dictGet fs _ _ = _
      unfold dictGet
      rw [h]
      rfl

/-- Witness for C4 at a reply supplying score 500 and no confidence. -/
theorem c4_witness :
    (analyze_sentiment_with_openai (AnalysisOutcome.ok [("score", JVal.vnum 500)])).score =
      JVal.vnum 500 ∧
    (analyze_sentiment_with_openai (AnalysisOutcome.ok [("score", JVal.vnum 500)])).confidence =
      JVal.vnum (1 / 2) :=
  ⟨(c4_amended [("score", JVal.vnum 500)] (JVal.vnum 500)).2.1 rfl,
   (c4_amended [("score", JVal.vnum 500)] (JVal.vnum 500)).2.2.1 rfl⟩

/-- Counterexample for C5: with the email credentials missing,
`legalbandi_monitor`'s `main` still returns exit status 0, where the claim
demands a non-zero status. -/
theorem c5_counterexample :
    legalbandi_main [bando0] (fun _ => ModelReply.raises)
      { sender := none, password := none, sendOk := false } = 0 ∧
    send_email_report_ok { sender := none, password := none, sendOk := false } = false :=
  ⟨rfl, rfl⟩

/-- C5 (amended): `legalbandi_monitor`'s `main` always returns 0, even when
a required configuration value is missing; `send_signal_email`'s `main`
returns 0 exactly when the email send succeeds, 1 when it fails (including
missing credentials), and never reaches exit 0 with an unset sender.  The
model-call-and-fallback-both-fail condition has no exit path in either
script because both fallbacks are total. -/
theorem c5_exit_codes (fetched : List Bando) (m : String → ModelReply) (env : MailEnv)
    (outcome : AnalysisOutcome) (msg : String) :
    legalbandi_main fetched m env = 0 ∧
    (send_email_signal_ok env = true →
      signal_main (AnalysisOutcome.exc msg) env = some 0) ∧
    (send_email_signal_ok env = false →
      signal_main (AnalysisOutcome.exc msg) env = some 1) ∧
    (env.sender = none → signal_main outcome env ≠ some 0) := by
  refine ⟨?_, ?_, ?_, ?_⟩
  · unfold legalbandi_main
    split <;> rfl
  · intro h
    simp [signal_main, analyze_sentiment_with_openai, chartOfSentiment,
      create_sentiment_chart, h]
  · intro h
    simp [signal_main, analyze_sentiment_with_openai, chartOfSentiment,
      create_sentiment_chart, h]
  · intro hs
    have hok : send_email_signal_ok env = false := by
      unfold send_email_signal_ok pyTruthyStr
      rw [hs]
      rfl
    unfold signal_main
    cases hch : chartOfSentiment (analyze_sentiment_with_openai outcome) with
    | none => simp [hch]
    | some c => simp [hch, hok]

/-- Witness for C5 at concrete mail environments. -/
theorem c5_witness :
    legalbandi_main [bando0] (fun _ => ModelReply.raises)
      { sender := some "a@example.com", password := some "pw", sendOk := true } = 0 ∧
    signal_main (AnalysisOutcome.exc "err")
      { sender := some "a@example.com", password := some "pw", sendOk := true } = some 0 ∧
    signal_main (AnalysisOutcome.exc "err")
      { sender := none, password := none, sendOk := false } = some 1 ∧
    signal_main (AnalysisOutcome.ok [])
      { sender := none, password := none, sendOk := false } ≠ some 0 := by
  refine ⟨?_, ?_, ?_, ?_⟩
  · exact (c5_exit_codes [bando0] (fun _ => ModelReply.raises)
      { sender := some "a@example.com", password := some "pw", sendOk := true }
      (AnalysisOutcome.ok []) "err").1
  · exact (c5_exit_codes [bando0] (fun _ => ModelReply.raises)
      { sender := some "a@example.com", password := some "pw", sendOk := true }
      (AnalysisOutcome.ok []) "err").2.1 (by decide)
  · exact (c5_exit_codes [bando0] (fun _ => ModelReply.raises)
      { sender := none, password := none, sendOk := false }
      (AnalysisOutcome.ok []) "err").2.2.1 (by decide)
  · exact (c5_exit_codes [bando0] (fun _ => ModelReply.raises)
      { sender := none, password := none, sendOk := false }
      (AnalysisOutcome.ok []) "err").2.2.2 rfl

/-- C3: the chart is a total, deterministic function of the score; the bar
is red for score < -30, orange for -30 ≤ score < 30, green for score ≥ 30;
the display range is fixed at [-100, 100] and the displayed bar extent is
the score clamped to that range even when the input exceeds it. -/
theorem c3_chart_total (q : ℚ) :
    (q < -30 → (create_sentiment_chart q).barColor = "red") ∧
    (-30 ≤ q → q < 30 → (create_sentiment_chart q).barColor = "orange") ∧
    (30 ≤ q → (create_sentiment_chart q).barColor = "green") ∧
    (create_sentiment_chart q).xMin = -100 ∧
    (create_sentiment_chart q).xMax = 100 ∧
    -100 ≤ shownBarValue (create_sentiment_chart q) ∧
    shownBarValue (create_sentiment_chart q) ≤ 100 ∧
    (-100 ≤ q → q ≤ 100 → shownBarValue (create_sentiment_chart q) = q) ∧
    (100 < q → shownBarValue (create_sentiment_chart q) = 100) ∧
    (q < -100 → shownBarValue (create_sentiment_chart q) = -100) := by
  unfold create_sentiment_chart shownBarValue
  refine ⟨?_, ?_, ?_, rfl, rfl, ?_, ?_, ?_, ?_, ?_⟩
  · intro h
    simp only [if_pos h]
  · intro h1 h2
    simp only [if_neg (by linarith : ¬q < -30), if_pos h2]
  · intro h
    simp only [if_neg (by linarith : ¬q < -30), if_neg (by linarith : ¬q < 30)]
  · simp only
    exact le_max_left _ _
  · simp only
    exact max_le (by norm_num) (min_le_left _ _)
  · intro h1 h2
    simp only
    rw [min_eq_right h2, max_eq_right h1]
  · intro h
    simp only
    rw [min_eq_left (le_of_lt h), max_eq_right (by norm_num)]
  · intro h
    simp only
    rw [min_eq_right (by linarith), max_eq_left (by linarith)]

/-- Witness for C3 at the spec's example scores and two out-of-range ones. -/
theorem c3_witness :
    (create_sentiment_chart (-50)).barColor = "red" ∧
    (create_sentiment_chart 10).barColor = "orange" ∧
    (create_sentiment_chart 60).barColor = "green" ∧
    shownBarValue (create_sentiment_chart 150) = 100 ∧
    shownBarValue (create_sentiment_chart (-150)) = -100 :=
  ⟨(c3_chart_total (-50)).1 (by norm_num),
   (c3_chart_total 10).2.1 (by norm_num) (by norm_num),
   (c3_chart_total 60).2.2.1 (by norm_num),
   (c3_chart_total 150).2.2.2.2.2.2.2.2.1 (by norm_num),
   (c3_chart_total (-150)).2.2.2.2.2.2.2.2.2 (by norm_num)⟩

theorem genericCollect_raises (srcName srcUrl nowStr : String)
    (lpre lpost : List LinkElem) :
    genericCollect srcName srcUrl nowStr (lpre ++ LinkElem.raises :: lpost) =
      Except.error () := by
  induction lpre with
  | nil => rfl
  | cons e rest ih =>
    cases e with
    | raises => rfl
    | ok text href =>
      show (match genericCollect srcName srcUrl nowStr (rest ++ LinkElem.raises :: lpost) with
        | Except.error e => Except.error e
        | Except.ok bs => Except.ok
            (if genKeep text then genRecord srcName srcUrl nowStr text href :: bs else bs)) =
        Except.error ()
      rw [ih]

/-- C7 (amended): only the ConcorsiPubblici branch swallows a per-element
exception and skips just that element (shown here within the 10-element
window its slicing scans); in the generic branch a raising element
propagates to the function-level handler, which returns the empty list for
the whole source, discarding the records of every other element. -/
theorem c7_per_element_exceptions (srcName srcUrl nowStr : String)
    (pre post : List CPElem) (lpre lpost : List LinkElem) :
    (pre.length + 1 + post.length ≤ 10 →
      fetch_concorsipubblici srcName srcUrl nowStr (pre ++ CPElem.raises :: post) =
        fetch_concorsipubblici srcName srcUrl nowStr (pre ++ post)) ∧
    fetch_generic srcName srcUrl nowStr (lpre ++ LinkElem.raises :: lpost) = [] := by
  constructor
  · intro hlen
    have h1 : (pre ++ CPElem.raises :: post).length ≤ 10 := by
      simp only [List.length_append, List.length_cons]
      omega
    have h2 : (pre ++ post).length ≤ 10 := by
      simp only [List.length_append]
      omega
    unfold fetch_concorsipubblici
    rw [List.take_of_length_le h1, List.take_of_length_le h2,
      List.filterMap_append, List.filterMap_append, List.filterMap_cons]
  · unfold fetch_generic
    rw [genericCollect_raises]

/-- Counterexample for C7: in the generic branch, a batch whose first
element yields a record and whose second element raises produces `[]`,
not the first element's record — the per-element failure aborts the whole
source, contradicting the claim for this branch. -/
theorem c7_counterexample :
    fetch_generic "Ministero Giustizia" "https://g.it" "2026-10-07"
      [LinkElem.ok "bando di concorso per avvocato collaboratore esterno" "http://x",
       LinkElem.raises] = [] ∧
    fetch_generic "Ministero Giustizia" "https://g.it" "2026-10-07"
      [LinkElem.ok "bando di concorso per avvocato collaboratore esterno" "http://x"] =
      [⟨"Ministero Giustizia", "bando di concorso per avvocato collaboratore esterno",
        "http://x", "2026-10-07"⟩] := by
  constructor
  · rfl
  · decide

/-- Witness for C7 (amended) at concrete element lists. -/
theorem c7_witness :
    fetch_concorsipubblici "ConcorsiPubblici.com" "https://c.com" "2026-10-07"
      [CPElem.found "Bando avvocato", CPElem.raises] =
      fetch_concorsipubblici "ConcorsiPubblici.com" "https://c.com" "2026-10-07"
        [CPElem.found "Bando avvocato"] ∧
    fetch_generic "Ministero Giustizia" "https://g.it" "2026-10-07"
      [LinkElem.raises] = [] :=
  ⟨(c7_per_element_exceptions "ConcorsiPubblici.com" "https://c.com" "2026-10-07"
      [CPElem.found "Bando avvocato"] [] [] []).1 (by decide),
   (c7_per_element_exceptions "Ministero Giustizia" "https://g.it" "2026-10-07"
      [] [] [] []).2⟩

/-- Flattened character data of one per-record block. -/
theorem bando_block_data (i : Nat) (b : Bando) :
    (bando_block (i + 1) b).data =
      block_seg1.data ++ (natStrChars (i + 1) ++ (block_seg2.data ++ (b.title.data ++
        (block_seg3.data ++ (b.source.data ++ (block_seg4.data ++ (b.url.data ++
          (block_seg5.data ++ ((b.url.take 80).data ++ (block_seg6.data ++
            (b.found_date.data ++ block_seg7.data))))))))))) := by
  simp [bando_block, strData_append, natStr, List.append_assoc]

/-- C8: for an empty filtered set the rendered body contains the explicit
zero-count notice and no per-record block (witnessed by the absence of the
block's opening markup, whose characters cannot come from the timestamp or
the digit-rendered total); for a non-empty set the renderer emits exactly
one block per record, and the block of the `i`-th record contains its
source, its URL truncated to 80 characters, and its found date. -/
theorem c8_report_rendering (nowStr : String) (total : Nat) (bandi : List Bando)
    (i : Nat) (b : Bando) :
    strContains (send_email_report_body nowStr [] total)
      "<p>Bandi pertinenti (collaboratori libero foro): <strong>0</strong></p>" = true ∧
    ((∀ c ∈ nowStr.data, c ≠ '#') →
      strContains (send_email_report_body nowStr [] total)
        "<div style=\"background: #f5f5f5" = false) ∧
    (bandi[i]? = some b →
      strContains (send_email_report_body nowStr bandi total) (bando_block (i + 1) b) = true ∧
      strContains (bando_block (i + 1) b) b.source = true ∧
      strContains (bando_block (i + 1) b) (b.url.take 80) = true ∧
      strContains (bando_block (i + 1) b) b.found_date = true) ∧
    (bandi_blocks bandi).length = bandi.length := by
  refine ⟨?_, ?_, ?_, bandi_blocks_from_length bandi 1⟩
  · show strContains (empty_report_body nowStr total) _ = true
    unfold strContains empty_report_body
    rw [strData_append]
    exact hasSub_append_left _ (by decide)
  · intro hns
    rw [Bool.eq_false_iff]
    intro h
    have h' : hasSub ("<div style=\"background: #f5f5f5").data
        (send_email_report_body nowStr [] total).data = true := h
    have hdata : (send_email_report_body nowStr [] total).data =
        empty_seg1.data ++ (nowStr.data ++ (empty_seg2.data ++
          (natStrChars total ++ empty_seg3.data))) := by
      simp [send_email_report_body, empty_report_body, strData_append, natStr,
        List.append_assoc]
    rw [hdata] at h'
    have hch := hasSub_chars h' '#' (by decide)
    simp only [List.mem_append] at hch
    rcases hch with h1 | h2 | h3 | h4 | h5
    · exact absurd h1 (by decide)
    · exact hns _ h2 rfl
    · exact absurd h3 (by decide)
    · exact absurd (natStrChars_digits total '#' h4) (by decide)
    · exact absurd h5 (by decide)
  · intro hget
    have hne : bandi.isEmpty = false := by
      cases bandi with
      | nil => simp at hget
      | cons x xs => rfl
    have hmem : bando_block (i + 1) b ∈ bandi_blocks bandi := by
      have hbg := bandi_blocks_from_getElem? bandi 1 i b hget
      rw [Nat.add_comm 1 i] at hbg
      exact List.getElem?_mem hbg
    have hbody : send_email_report_body nowStr bandi total =
        nonempty_report_body nowStr bandi total := by
      simp [send_email_report_body, hne]
    refine ⟨?_, ?_, ?_, ?_⟩
    · rw [hbody]
      unfold strContains
      have hdata2 : (nonempty_report_body nowStr bandi total).data =
          nonempty_seg1.data ++ (nowStr.data ++ (nonempty_seg2.data ++
            (natStrChars total ++ (nonempty_seg3.data ++ (natStrChars bandi.length ++
              (nonempty_seg4.data ++ ((concatAll (bandi_blocks bandi)).data ++
                nonempty_seg5.data))))))) := by
        simp [nonempty_report_body, strData_append, natStr, List.append_assoc]
      rw [hdata2]
      apply hasSub_append_left
      apply hasSub_append_left
      apply hasSub_append_left
      apply hasSub_append_left
      apply hasSub_append_left
      apply hasSub_append_left
      apply hasSub_append_left
      exact hasSub_append_right _ (hasSub_concatAll hmem)
    · unfold strContains
      rw [bando_block_data i b]
      apply hasSub_append_left
      apply hasSub_append_left
      apply hasSub_append_left
      apply hasSub_append_left
      apply hasSub_append_left
      exact hasSub_of_leadsWith (leadsWith_self_append _ _)
    · unfold strContains
      rw [bando_block_data i b]
      apply hasSub_append_left
      apply hasSub_append_left
      apply hasSub_append_left
      apply hasSub_append_left
      apply hasSub_append_left
      apply hasSub_append_left
      apply hasSub_append_left
      apply hasSub_append_left
      apply hasSub_append_left
      exact hasSub_of_leadsWith (leadsWith_self_append _ _)
    · unfold strContains
      rw [bando_block_data i b]
      apply hasSub_append_left
      apply hasSub_append_left
      apply hasSub_append_left
      apply hasSub_append_left
      apply hasSub_append_left
      apply hasSub_append_left
      apply hasSub_append_left
      apply hasSub_append_left
      apply hasSub_append_left
      apply hasSub_append_left
      apply hasSub_append_left
      exact hasSub_of_leadsWith (leadsWith_self_append _ _)

/-- Witness for C8 at a concrete timestamp, total and one-record set. -/
theorem c8_witness :
    strContains (send_email_report_body "07/10/2026 12:00" [] 3)
      "<p>Bandi pertinenti (collaboratori libero foro): <strong>0</strong></p>" = true ∧
    strContains (send_email_report_body "07/10/2026 12:00" [] 3)
      "<div style=\"background: #f5f5f5" = false ∧
    strContains (send_email_report_body "07/10/2026 12:00" [bando0] 3)
      (bando_block 1 bando0) = true ∧
    strContains (bando_block 1 bando0) bando0.source = true := by
  have h := c8_report_rendering "07/10/2026 12:00" 3 [bando0] 0 bando0
  have h3 := h.2.2.1 rfl
  exact ⟨h.1, h.2.1 (by decide), h3.1, h3.2.1⟩

end SentimentSignal
